import Mathlib

/-!
Shallow embedding of the save-media access coordination layer from
`agb/src/save/mod.rs`: bounds checking, sector alignment, the two-phase
write protocol (prepare, write, verify) and backend registration.

Modelling conventions:
- `usize` is modelled as `Nat`; byte buffers (`&[u8]`) as `List Nat`.
- Rust `core::ops::Range<usize>` becomes `SRange`; its field `end` is
  renamed `stop` because `end` is a Lean keyword.
- The backend trait object (`dyn RawSaveAccess`) becomes a structure of
  response functions.  Each coordination-layer operation returns, next to
  the result the source returns, the list of backend calls it issued, so
  that theorems can state that the backend was or was not invoked.  The
  result component follows the source exactly.
- The `assert!` in `set_save_implementation` (a process abort) is
  modelled by the `FatalOr.fatal` constructor, which carries the
  assertion message and is distinct from every `Error` value.
- The global registry cell `CURRENT_SAVE_ACCESS` is passed as an explicit
  `Option RawSaveAccess` argument.
- The media lock and the timeout are irrelevant to the properties proved
  here; they are kept as inert fields of `SaveData`.
-/

/-- Rust `core::ops::Range<usize>`.  The source field `end` is called
`stop` here because `end` is a Lean keyword. -/
structure SRange where
  start : Nat
  stop : Nat
  deriving DecidableEq

/-- Rust `Range::contains(&x)`: `start <= x && x < end`. -/
def SRange.contains (r : SRange) (x : Nat) : Prop :=
  r.start ≤ x ∧ x < r.stop

instance (r : SRange) (x : Nat) : Decidable (r.contains x) :=
  inferInstanceAs (Decidable (_ ∧ _))

/-- Rust `Range::len()` for `Range<usize>`: `end - start`, and `0` when
`start >= end` (the iterator is empty).  `Nat` subtraction matches. -/
def SRange.length (r : SRange) : Nat :=
  r.stop - r.start

/-- The `MediaType` enumeration from the source. -/
inductive MediaType where
  | Sram32K
  | Eeprom8K
  | Eeprom512B
  | Flash64K
  | Flash128K
  | Custom
  deriving DecidableEq

/-- The `Error` enumeration from the source. -/
inductive Error where
  | NoMedia
  | WriteError
  | OperationTimedOut
  | OutOfBounds
  | MediaInUse
  | IncompatibleCommand
  deriving DecidableEq

/-- The `MediaInfo` record from the source. -/
structure MediaInfo where
  media_type : MediaType
  sector_shift : Nat
  sector_count : Nat
  uses_prepare_write : Bool
  deriving DecidableEq

/-- One invocation of a backend (`RawSaveAccess`) operation, recorded in
the call trace returned by the coordination-layer operations. -/
inductive BackendCall where
  | read (offset : Nat) (buffer : List Nat)
  | verify (offset : Nat) (buffer : List Nat)
  | prepare_write (sector : Nat) (count : Nat)
  | write (offset : Nat) (buffer : List Nat)
  deriving DecidableEq

/-- The `RawSaveAccess` trait: a backend capability, modelled as the
responses of its five operations.  `read` returns the new buffer
contents in place of mutating its argument. -/
structure RawSaveAccess where
  info : Except Error MediaInfo
  read : Nat → List Nat → Except Error (List Nat)
  verify : Nat → List Nat → Except Error Bool
  prepare_write : Nat → Nat → Except Error Unit
  write : Nat → List Nat → Except Error Unit

/-- Outcome of an operation that may abort the process: `fatal` models a
Rust `assert!` failure (a panic, not a returned `Error`). -/
inductive FatalOr (α : Type) where
  | fatal (msg : String)
  | ok (val : α)

/-- `set_save_implementation`: asserts that no backend is registered yet,
then stores the given one.  The global cell is the explicit `current`
argument; the returned value is the new cell contents, or `fatal` with
the assertion message when a backend was already registered. -/
def set_save_implementation (current : Option RawSaveAccess)
    (access_impl : RawSaveAccess) : FatalOr (Option RawSaveAccess) :=
  if current.isNone then
    FatalOr.ok (some access_impl)
  else
    FatalOr.fatal "Cannot initialize the savegame engine more than once."

/-- The `SaveData` accessor.  `lock` (a `RawMutexGuard`) and `timeout`
(`utils::Timeout`, wrapping an optional timer) play no role in the
properties proved here and are kept as inert data. -/
structure SaveData where
  lock : Unit
  access : RawSaveAccess
  info : MediaInfo
  timeout : Option Nat

/-- `SaveData::media_info`. -/
def SaveData.media_info (s : SaveData) : MediaInfo :=
  s.info

/-- `SaveData::media_type`. -/
def SaveData.media_type (s : SaveData) : MediaType :=
  s.info.media_type

/-- `SaveData::sector_size`: `1 << sector_shift`. -/
def SaveData.sector_size (s : SaveData) : Nat :=
  1 <<< s.info.sector_shift

/-- `SaveData::len`: `sector_count << sector_shift`. -/
def SaveData.len (s : SaveData) : Nat :=
  s.info.sector_count <<< s.info.sector_shift

/-- `SaveData::check_bounds`: errors when `range.start >= len()` or
`range.end >= len()`. -/
def SaveData.check_bounds (s : SaveData) (range : SRange) : Except Error Unit :=
  if range.start ≥ s.len ∨ range.stop ≥ s.len then
    Except.error Error.OutOfBounds
  else
    Except.ok ()

/-- `SaveData::check_bounds_len`: `check_bounds(offset..offset+len)`. -/
def SaveData.check_bounds_len (s : SaveData) (offset len : Nat) : Except Error Unit :=
  s.check_bounds ⟨offset, offset + len⟩

/-- `SaveData::read`: bounds check, then delegate to the backend.  The
second component records the backend calls issued. -/
def SaveData.read (s : SaveData) (offset : Nat) (buffer : List Nat) :
    Except Error (List Nat) × List BackendCall :=
  match s.check_bounds_len offset buffer.length with
  | Except.error e => (Except.error e, [])
  | Except.ok _ => (s.access.read offset buffer, [BackendCall.read offset buffer])

/-- `SaveData::verify`: bounds check, then delegate to the backend. -/
def SaveData.verify (s : SaveData) (offset : Nat) (buffer : List Nat) :
    Except Error Bool × List BackendCall :=
  match s.check_bounds_len offset buffer.length with
  | Except.error e => (Except.error e, [])
  | Except.ok _ => (s.access.verify offset buffer, [BackendCall.verify offset buffer])

/-- `SaveData::align_range`.  In the source, `mask = (1 << shift) - 1`
and the bounds are `start & !mask` and `(end + mask) & !mask`; clearing
the low `shift` bits of `x` equals `(x >>> shift) <<< shift` over `Nat`. -/
def SaveData.align_range (s : SaveData) (range : SRange) : SRange :=
  let shift := s.info.sector_shift
  let mask := (1 <<< shift) - 1
  ⟨(range.start >>> shift) <<< shift, ((range.stop + mask) >>> shift) <<< shift⟩

/-- A `SavePreparedBlock`: the parent accessor together with the byte
range the block was prepared for. -/
structure SavePreparedBlock where
  parent : SaveData
  range : SRange

/-- `SaveData::prepare_write`: bounds check; when the media uses
prepare-write, erase the sectors covering the aligned range; return a
block scoped to the original range. -/
def SaveData.prepare_write (s : SaveData) (range : SRange) :
    Except Error SavePreparedBlock × List BackendCall :=
  match s.check_bounds range with
  | Except.error e => (Except.error e, [])
  | Except.ok _ =>
    if s.info.uses_prepare_write then
      let r := s.align_range range
      let shift := s.info.sector_shift
      match s.access.prepare_write (r.start >>> shift) (r.length >>> shift) with
      | Except.error e =>
        (Except.error e, [BackendCall.prepare_write (r.start >>> shift) (r.length >>> shift)])
      | Except.ok _ =>
        (Except.ok ⟨s, range⟩, [BackendCall.prepare_write (r.start >>> shift) (r.length >>> shift)])
    else
      (Except.ok ⟨s, range⟩, [])

/-- `SavePreparedBlock::write`: empty buffers succeed trivially; a
non-empty buffer must have both its first and last offset inside the
prepared range, otherwise `OutOfBounds`; then delegate. -/
def SavePreparedBlock.write (b : SavePreparedBlock) (offset : Nat) (buffer : List Nat) :
    Except Error Unit × List BackendCall :=
  if buffer.length = 0 then
    (Except.ok (), [])
  else if ¬ b.range.contains offset ∨ ¬ b.range.contains (offset + buffer.length - 1) then
    (Except.error Error.OutOfBounds, [])
  else
    (b.parent.access.write offset buffer, [BackendCall.write offset buffer])

/-- `SavePreparedBlock::write_and_verify`: `write`, then the parent
accessor `verify`; a verify mismatch becomes `WriteError`. -/
def SavePreparedBlock.write_and_verify (b : SavePreparedBlock) (offset : Nat)
    (buffer : List Nat) : Except Error Unit × List BackendCall :=
  match b.write offset buffer with
  | (Except.error e, t1) => (Except.error e, t1)
  | (Except.ok _, t1) =>
    match b.parent.verify offset buffer with
    | (Except.error e, t2) => (Except.error e, t1 ++ t2)
    | (Except.ok true, t2) => (Except.ok (), t1 ++ t2)
    | (Except.ok false, t2) => (Except.error Error.WriteError, t1 ++ t2)

/-! Concrete instances used by counterexamples and witnesses: a 128 KiB
flash backend (sector shift 12, 32 sectors, capacity 131072 bytes) whose
verify operation always reports a mismatch. -/

/-- `MediaInfo` of a 128 KiB flash cart: 4096-byte sectors, 32 sectors. -/
def demoInfo : MediaInfo :=
  ⟨MediaType.Flash128K, 12, 32, true⟩

/-- A concrete backend: reads and writes succeed, verify reports a
mismatch, prepare-write succeeds. -/
def demoAccess : RawSaveAccess where
  info := Except.ok demoInfo
  read := fun _ buffer => Except.ok buffer
  verify := fun _ _ => Except.ok false
  prepare_write := fun _ _ => Except.ok ()
  write := fun _ _ => Except.ok ()

/-- A concrete accessor over `demoAccess`. -/
def demoSave : SaveData :=
  ⟨(), demoAccess, demoInfo, none⟩

/-- A concrete prepared block over bytes `4000..5000` of `demoSave`. -/
def demoBlock : SavePreparedBlock :=
  ⟨demoSave, ⟨4000, 5000⟩⟩

/-! Arithmetic helper lemmas about the shift operations. -/

/-- Shifting right then left by `s` clears the low `s` bits. -/
lemma shiftRight_shiftLeft (s x : Nat) : (x >>> s) <<< s = x / 2 ^ s * 2 ^ s := by
  rw [Nat.shiftLeft_eq, Nat.shiftRight_eq_div_pow]

/-- `1 <<< s` is `2 ^ s`. -/
lemma one_shiftLeft_eq (s : Nat) : (1 : Nat) <<< s = 2 ^ s := by
  rw [Nat.shiftLeft_eq, one_mul]

/-- `check_bounds_len` succeeds exactly when `offset + len` is strictly
below the capacity. -/
lemma check_bounds_len_eq (s : SaveData) (offset len : Nat) :
    s.check_bounds_len offset len =
      (if offset + len < s.len then Except.ok () else Except.error Error.OutOfBounds) := by
  unfold SaveData.check_bounds_len SaveData.check_bounds
  dsimp only
  split <;> split <;> first | rfl | omega

/-- `check_bounds` fails whenever the range end reaches the capacity. -/
lemma check_bounds_error_of_stop_ge (s : SaveData) (r : SRange) (h : s.len ≤ r.stop) :
    s.check_bounds r = Except.error Error.OutOfBounds := by
  unfold SaveData.check_bounds
  rw [if_pos (Or.inr h)]

/-- `read` reduces to the backend call when the bounds check passes. -/
lemma read_eq (s : SaveData) (offset : Nat) (buffer : List Nat) :
    s.read offset buffer =
      (if offset + buffer.length < s.len then
        (s.access.read offset buffer, [BackendCall.read offset buffer])
      else
        (Except.error Error.OutOfBounds, [])) := by
  unfold SaveData.read
  rw [check_bounds_len_eq]
  by_cases h : offset + buffer.length < s.len
  · rw [if_pos h, if_pos h]
  · rw [if_neg h, if_neg h]

/-- `verify` reduces to the backend call when the bounds check passes. -/
lemma verify_eq (s : SaveData) (offset : Nat) (buffer : List Nat) :
    s.verify offset buffer =
      (if offset + buffer.length < s.len then
        (s.access.verify offset buffer, [BackendCall.verify offset buffer])
      else
        (Except.error Error.OutOfBounds, [])) := by
  unfold SaveData.verify
  rw [check_bounds_len_eq]
  by_cases h : offset + buffer.length < s.len
  · rw [if_pos h, if_pos h]
  · rw [if_neg h, if_neg h]

/-- Claim C1 (amended): `SaveData::read` and `SaveData::verify` pass
validation and delegate to the backend exactly when
`offset + buffer.len()` is strictly below `len()`; every other call,
including those with `offset + buffer.len() = len()`, returns
`OutOfBounds` without reaching the backend. -/
theorem read_verify_validate_strictly_below_len (s : SaveData) (offset : Nat)
    (buffer : List Nat) :
    s.read offset buffer =
      (if offset + buffer.length < s.len then
        (s.access.read offset buffer, [BackendCall.read offset buffer])
      else
        (Except.error Error.OutOfBounds, [])) ∧
    s.verify offset buffer =
      (if offset + buffer.length < s.len then
        (s.access.verify offset buffer, [BackendCall.verify offset buffer])
      else
        (Except.error Error.OutOfBounds, [])) :=
  ⟨read_eq s offset buffer, verify_eq s offset buffer⟩

/-- Claim C1 (counterexample): the call `read(131071, [42])` has
`offset + buffer.len() = 131072 = len()`, so its range lies entirely
below `len()`, yet it is rejected with `OutOfBounds` and never delegated
(the backend would have answered `ok`); `verify` behaves the same. -/
theorem read_last_byte_rejected_cex :
    131071 + ([42] : List Nat).length ≤ demoSave.len ∧
    demoSave.read 131071 [42] = (Except.error Error.OutOfBounds, []) ∧
    demoSave.verify 131071 [42] = (Except.error Error.OutOfBounds, []) :=
  ⟨by decide, rfl, rfl⟩

/-- Claim C2: whenever the requested range ends at or beyond the
capacity `sector_count << sector_shift`, `read`, `verify` and
`prepare_write` all return `OutOfBounds` and issue no backend call. -/
theorem range_end_ge_capacity_out_of_bounds (s : SaveData) (offset : Nat)
    (buffer : List Nat) (r : SRange) (hb : s.len ≤ offset + buffer.length)
    (hr : s.len ≤ r.stop) :
    s.read offset buffer = (Except.error Error.OutOfBounds, []) ∧
    s.verify offset buffer = (Except.error Error.OutOfBounds, []) ∧
    s.prepare_write r = (Except.error Error.OutOfBounds, []) := by
  refine ⟨?_, ?_, ?_⟩
  · rw [read_eq, if_neg (by omega)]
  · rw [verify_eq, if_neg (by omega)]
  · unfold SaveData.prepare_write
    rw [check_bounds_error_of_stop_ge s r hr]

/-- Claim C2 (witness): concrete out-of-capacity calls on the demo
accessor. -/
theorem range_end_ge_capacity_out_of_bounds_witness :
    demoSave.read 131071 [0] = (Except.error Error.OutOfBounds, []) ∧
    demoSave.verify 131071 [0] = (Except.error Error.OutOfBounds, []) ∧
    demoSave.prepare_write ⟨0, 131072⟩ = (Except.error Error.OutOfBounds, []) :=
  range_end_ge_capacity_out_of_bounds demoSave 131071 [0] ⟨0, 131072⟩
    (by decide) (by decide)

/-- Claim C10: at any offset at or beyond `len()`, `read` and `verify`
return `OutOfBounds` even for an empty buffer: empty-buffer reads and
verifies are not trivially accepted at out-of-range offsets. -/
theorem empty_buffer_read_out_of_bounds (s : SaveData) (offset : Nat)
    (h : s.len ≤ offset) :
    s.read offset [] = (Except.error Error.OutOfBounds, []) ∧
    s.verify offset [] = (Except.error Error.OutOfBounds, []) := by
  constructor
  · rw [read_eq, if_neg (by simp; omega)]
  · rw [verify_eq, if_neg (by simp; omega)]

/-- Claim C10 (witness): an empty-buffer read and verify at offset
131072, the exact capacity of the demo accessor, are rejected. -/
theorem empty_buffer_read_out_of_bounds_witness :
    demoSave.read 131072 [] = (Except.error Error.OutOfBounds, []) ∧
    demoSave.verify 131072 [] = (Except.error Error.OutOfBounds, []) :=
  empty_buffer_read_out_of_bounds demoSave 131072 (by decide)

/-- Claim C3: a successful `prepare_write` always yields a block scoped
to the original, unaligned range; concretely, with 4096-byte sectors
(`sector_shift = 12`), `prepare_write(4000..5000)` erases exactly
sectors 0 and 1 (bytes `0..8192`) while the returned block keeps the
writable range `4000..5000`. -/
theorem prepare_write_scoped_to_original_range (s : SaveData) (r : SRange)
    (b : SavePreparedBlock) (tr : List BackendCall)
    (h : s.prepare_write r = (Except.ok b, tr)) :
    b.range = r ∧
    demoSave.align_range ⟨4000, 5000⟩ = ⟨0, 8192⟩ ∧
    demoSave.prepare_write ⟨4000, 5000⟩ =
      (Except.ok ⟨demoSave, ⟨4000, 5000⟩⟩, [BackendCall.prepare_write 0 2]) := by
  refine ⟨?_, rfl, rfl⟩
  unfold SaveData.prepare_write at h
  split at h
  · simp at h
  · split at h
    · dsimp only at h
      split at h
      · simp at h
      · simp only [Prod.mk.injEq, Except.ok.injEq] at h
        obtain ⟨h1, h2⟩ := h
        subst h1
        rfl
    · simp only [Prod.mk.injEq, Except.ok.injEq] at h
      obtain ⟨h1, h2⟩ := h
      subst h1
      rfl

/-- Claim C3 (witness): the shift-12 example instantiated: the block
returned for `4000..5000` keeps range `4000..5000`, the aligned range is
`0..8192`, and the backend erase call is for sector 0, count 2. -/
theorem prepare_write_scoped_to_original_range_witness :
    (⟨demoSave, ⟨4000, 5000⟩⟩ : SavePreparedBlock).range = ⟨4000, 5000⟩ ∧
    demoSave.align_range ⟨4000, 5000⟩ = ⟨0, 8192⟩ ∧
    demoSave.prepare_write ⟨4000, 5000⟩ =
      (Except.ok ⟨demoSave, ⟨4000, 5000⟩⟩, [BackendCall.prepare_write 0 2]) :=
  prepare_write_scoped_to_original_range demoSave ⟨4000, 5000⟩
    ⟨demoSave, ⟨4000, 5000⟩⟩ [BackendCall.prepare_write 0 2] rfl

/-- Claim C4: `align_range` is idempotent. -/
theorem align_range_idempotent (s : SaveData) (r : SRange) :
    s.align_range (s.align_range r) = s.align_range r := by
  unfold SaveData.align_range
  simp only [shiftRight_shiftLeft, one_shiftLeft_eq]
  have hp : 0 < 2 ^ s.info.sector_shift := Nat.pos_pow_of_pos _ (by decide)
  set p := 2 ^ s.info.sector_shift with hpdef
  congr 1
  · rw [Nat.mul_div_cancel _ hp]
  · set k := (r.stop + (p - 1)) / p with hkdef
    have h1 : (k * p + (p - 1)) / p = k := by
      rw [Nat.add_comm, Nat.add_mul_div_right _ _ hp,
        Nat.div_eq_of_lt (Nat.sub_lt hp (by decide)), Nat.zero_add]
    rw [h1]

/-- Claim C5: `align_range` produces a range whose bounds are multiples
of `sector_size()` and which contains the input range entirely. -/
theorem align_range_aligned_and_contains (s : SaveData) (r : SRange) :
    s.sector_size ∣ (s.align_range r).start ∧
    s.sector_size ∣ (s.align_range r).stop ∧
    (s.align_range r).start ≤ r.start ∧
    r.stop ≤ (s.align_range r).stop := by
  unfold SaveData.align_range SaveData.sector_size
  simp only [shiftRight_shiftLeft, one_shiftLeft_eq]
  have hp : 0 < 2 ^ s.info.sector_shift := Nat.pos_pow_of_pos _ (by decide)
  set p := 2 ^ s.info.sector_shift with hpdef
  refine ⟨dvd_mul_left p _, dvd_mul_left p _, Nat.div_mul_le_self _ _, ?_⟩
  rw [Nat.mul_comm]
  have h1 := Nat.div_add_mod (r.stop + (p - 1)) p
  have h2 : (r.stop + (p - 1)) % p < p := Nat.mod_lt _ hp
  omega

/-- Claim C6: for a non-empty buffer, `SavePreparedBlock::write`
delegates to the backend exactly when `[offset, offset+buffer.len())` is
fully contained in the prepared range, and otherwise fails with
`OutOfBounds` without invoking the backend. -/
theorem prepared_write_bounds (b : SavePreparedBlock) (offset : Nat)
    (buffer : List Nat) (h : buffer.length ≠ 0) :
    (b.range.start ≤ offset ∧ offset + buffer.length ≤ b.range.stop →
      b.write offset buffer =
        (b.parent.access.write offset buffer, [BackendCall.write offset buffer])) ∧
    (¬(b.range.start ≤ offset ∧ offset + buffer.length ≤ b.range.stop) →
      b.write offset buffer = (Except.error Error.OutOfBounds, [])) := by
  constructor
  · intro hcont
    have hc : ¬(¬ b.range.contains offset ∨
        ¬ b.range.contains (offset + buffer.length - 1)) := by
      unfold SRange.contains
      omega
    unfold SavePreparedBlock.write
    rw [if_neg h, if_neg hc]
  · intro hncont
    have hc : ¬ b.range.contains offset ∨
        ¬ b.range.contains (offset + buffer.length - 1) := by
      unfold SRange.contains
      omega
    unfold SavePreparedBlock.write
    rw [if_neg h, if_pos hc]

/-- Claim C6 (witness): a fully contained two-byte write on the demo
block is delegated to the backend. -/
theorem prepared_write_bounds_witness :
    demoBlock.write 4000 [7, 7] =
      (demoBlock.parent.access.write 4000 [7, 7], [BackendCall.write 4000 [7, 7]]) :=
  (prepared_write_bounds demoBlock 4000 [7, 7] (by decide)).1 (by decide)

/-- Claim C7: `write_and_verify` returns `WriteError` when the write
succeeds but the verify reports a mismatch, and returns success exactly
when the write succeeds and the verify succeeds with a match. -/
theorem write_and_verify_semantics (b : SavePreparedBlock) (offset : Nat)
    (buffer : List Nat) :
    ((b.write offset buffer).1 = Except.ok () ∧
        (b.parent.verify offset buffer).1 = Except.ok false →
      (b.write_and_verify offset buffer).1 = Except.error Error.WriteError) ∧
    ((b.write_and_verify offset buffer).1 = Except.ok () ↔
      (b.write offset buffer).1 = Except.ok () ∧
        (b.parent.verify offset buffer).1 = Except.ok true) := by
  rcases hw : b.write offset buffer with ⟨wr, t1⟩
  rcases hv : b.parent.verify offset buffer with ⟨vr, t2⟩
  unfold SavePreparedBlock.write_and_verify
  rw [hw, hv]
  cases wr with
  | error e => simp
  | ok u =>
    cases vr with
    | error e => simp
    | ok bv => cases bv <;> simp

/-- Claim C7 (witness): on the demo block, whose backend write succeeds
and whose backend verify reports a mismatch, `write_and_verify` returns
`WriteError`. -/
theorem write_and_verify_semantics_witness :
    (demoBlock.write_and_verify 4000 [7, 7]).1 = Except.error Error.WriteError :=
  (write_and_verify_semantics demoBlock 4000 [7, 7]).1 ⟨rfl, rfl⟩

/-- Claim C8: a `SavePreparedBlock::write` with an empty buffer succeeds
at every offset, inside or outside the prepared range, and issues no
backend call. -/
theorem write_empty_buffer_ok (b : SavePreparedBlock) (offset : Nat) :
    b.write offset [] = (Except.ok (), []) :=
  rfl

/-- Claim C9: registering a backend while none is registered succeeds;
registering while one is already registered is the fatal assertion
failure (a process abort carrying the assertion message), not a returned
`Error` value: the result type of the model separates `fatal` from every
`Error`. -/
theorem set_save_implementation_once :
    (∀ i : RawSaveAccess, set_save_implementation none i = FatalOr.ok (some i)) ∧
    (∀ prev i : RawSaveAccess, set_save_implementation (some prev) i =
      FatalOr.fatal "Cannot initialize the savegame engine more than once.") :=
  ⟨fun _ => rfl, fun _ _ => rfl⟩
